import Mathlib

/-!
Shallow embedding of the chat UI controller in `src/static/app.js`.

The controller state (rendered message list, conversation history, loading
flag, welcome placeholder, input field, toast stack) is modelled as an
explicit record, and each source function (`handleSubmit`, `escapeHtml`,
`formatText`, `clearChat`, the small DOM helpers) becomes a Lean function
on that record.  Network settlement is passed in as an explicit outcome
value, and wall-clock time (for `new Date()`) as an explicit `Nat`.
-/

/-- The set of characters matched by the JavaScript regex class `\s`
(whitespace), used by the URL autolinking regex `[^\s]+`. -/
def isJsSpace (c : Char) : Bool :=
  c == ' ' || c == '\t' || c == '\n' || c == '\r' || c == '\x0b' || c == '\x0c' ||
  c == '\u00a0' || c == '\u1680' || (0x2000 ≤ c.toNat && c.toNat ≤ 0x200a) ||
  c == '\u2028' || c == '\u2029' || c == '\u202f' || c == '\u205f' ||
  c == '\u3000' || c == '\ufeff'

/-- One step of `escapeHtml`: the per-character map
`& ↦ &amp;  < ↦ &lt;  > ↦ &gt;  " ↦ &quot;  \x27 ↦ &#039;`,
every other character passed through unchanged. -/
def escapeChar (c : Char) : String :=
  if c = '&' then "&amp;"
  else if c = '<' then "&lt;"
  else if c = '>' then "&gt;"
  else if c = '"' then "&quot;"
  else if c = '\'' then "&#039;"
  else String.singleton c

/-- The concatenation of `escapeChar` over a character list. -/
def escapeList : List Char → String
  | [] => ""
  | c :: rest => escapeChar c ++ escapeList rest

/-- `escapeHtml` from `app.js`: `text.replace(/[&<>"]/g, m => map[m])` with
the five-entry map, i.e. the concatenation of `escapeChar` over the
characters of the input. -/
def escapeHtml (text : String) : String :=
  escapeList text.data

/-- The characters of the literal scheme `https://`. -/
def httpsChars : List Char := ['h', 't', 't', 'p', 's', ':', '/', '/']

/-- The characters of the literal scheme `http://`. -/
def httpChars : List Char := ['h', 't', 't', 'p', ':', '/', '/']

/-- Attempt to match the regex `https?:\/\/[^\s]+` at the head of `cs`.
On success, return the full matched run (scheme plus the maximal run of
non-whitespace characters, which must be nonempty) together with the
remaining characters after the match. -/
def tryUrlAt (cs : List Char) : Option (List Char × List Char) :=
  if httpsChars.isPrefixOf cs then
    if (cs.drop 8).takeWhile (fun c => !(isJsSpace c)) = [] then none
    else some (httpsChars ++ (cs.drop 8).takeWhile (fun c => !(isJsSpace c)),
               (cs.drop 8).dropWhile (fun c => !(isJsSpace c)))
  else if httpChars.isPrefixOf cs then
    if (cs.drop 7).takeWhile (fun c => !(isJsSpace c)) = [] then none
    else some (httpChars ++ (cs.drop 7).takeWhile (fun c => !(isJsSpace c)),
               (cs.drop 7).dropWhile (fun c => !(isJsSpace c)))
  else none

/-- The replacement template `<a href="$1" target="_blank" rel="noopener">$1</a>`
instantiated at a matched URL. -/
def urlAnchor (url : String) : String :=
  "<a href=\"" ++ url ++ "\" target=\"_blank\" rel=\"noopener\">" ++ url ++ "</a>"

/-- Fuel-indexed left-to-right scan implementing the global replace
`formatted.replace(/(https?:\/\/[^\s]+)/g, anchor-template)` from
`formatText`.  The fuel only serves termination: any fuel of at least
the length of the character list gives the same result
(`linkifyFuel_irrel`). -/
def linkifyFuel : Nat → List Char → String
  | 0, _ => ""
  | fuel + 1, cs =>
    match tryUrlAt cs with
    | some (url, rest2) => urlAnchor (String.mk url) ++ linkifyFuel fuel rest2
    | none =>
      match cs with
      | [] => ""
      | c :: rest => String.singleton c ++ linkifyFuel fuel rest

/-- The URL autolinking pass of `formatText`. -/
def linkify (cs : List Char) : String :=
  linkifyFuel cs.length cs

/-- The per-character concatenation implementing the newline replace. -/
def newlineBrList : List Char → String
  | [] => ""
  | c :: rest =>
    (if c = '\n' then "<br>" else String.singleton c) ++ newlineBrList rest

/-- The final step of `formatText`: `formatted.replace(/\n/g, "<br>")`. -/
def newlineBr (s : String) : String :=
  newlineBrList s.data

/-- `formatText` from `app.js`: escape HTML, autolink bare URLs, then
convert newlines to `<br>`. -/
def formatText (text : String) : String :=
  newlineBr (linkify (escapeHtml text).data)

/-- A JSON field value as observed on the parsed response body: either the
field is absent, or it holds `null`, a string, or a number.  This is the
fragment of JSON the controller inspects (`data.answer`, `data.error`). -/
inductive JsonF where
  | absent : JsonF
  | null : JsonF
  | str : String → JsonF
  | num : Int → JsonF
deriving DecidableEq

/-- JavaScript truthiness of a `JsonF` value (used by `data.error || ...`):
a string is truthy iff nonempty, a number iff nonzero, `null` and a missing
field are falsy. -/
def JsonF.truthy : JsonF → Bool
  | .str s => !(s == "")
  | .num n => !(n == 0)
  | _ => false

/-- The parsed response body, restricted to the two fields the controller
reads: `answer` and `error`. -/
structure RespBody where
  answer : JsonF
  error : JsonF
deriving DecidableEq

/-- Outcome of the `fetch` + `response.json()` exchange: either a parsed
response with its HTTP ok flag (`response.ok`, i.e. 2xx status), or an
exception (network failure or JSON parse failure), which lands in the
`catch` block. -/
inductive FetchOutcome where
  | response : Bool → RespBody → FetchOutcome
  | exception : FetchOutcome
deriving DecidableEq

/-- One rendered entry of the `chatMessages` DOM list.  The payload of
`user`, `ai` and `error` is the HTML fragment placed in the message
content (already escaped and, for `ai`, formatted); `typing` is the
`#typingIndicator` placeholder element. -/
inductive Msg where
  | user : String → Msg
  | ai : String → Msg
  | error : String → Msg
  | typing : Msg
deriving DecidableEq

/-- One entry of `conversationHistory`:
`{ question, answer, timestamp: new Date() }`.  Timestamps are modelled as
abstract `Nat` instants. -/
structure ConversationTurn where
  question : String
  answer : String
  timestamp : Nat
deriving DecidableEq

/-- One toast in the `toastContainer` stack: the escaped message text and
the severity type string. -/
structure Toast where
  message : String
  ty : String
deriving DecidableEq

/-- The observable state of the chat UI controller: the rendered message
list, the in-memory `conversationHistory`, the `isLoading` flag, whether
the welcome placeholder is shown, the text-input contents, and the toast
stack. -/
structure AppState where
  messages : List Msg
  conversationHistory : List ConversationTurn
  isLoading : Bool
  welcomeVisible : Bool
  inputValue : String
  toasts : List Toast
deriving DecidableEq

/-- The initial page state: empty chat, empty history, not loading,
welcome placeholder visible, empty input, no toasts. -/
def initialState : AppState :=
  { messages := [], conversationHistory := [], isLoading := false,
    welcomeVisible := true, inputValue := "", toasts := [] }

/-- `addUserMessage` from `app.js`: append a user message whose content is
the HTML-escaped text. -/
def addUserMessage (st : AppState) (text : String) : AppState :=
  { st with messages := st.messages ++ [Msg.user (escapeHtml text)] }

/-- `addAIMessage` from `app.js`: append an AI message whose content is the
formatted text. -/
def addAIMessage (st : AppState) (text : String) : AppState :=
  { st with messages := st.messages ++ [Msg.ai (formatText text)] }

/-- `addErrorMessage` from `app.js`: append an error message whose content
is the HTML-escaped text. -/
def addErrorMessage (st : AppState) (text : String) : AppState :=
  { st with messages := st.messages ++ [Msg.error (escapeHtml text)] }

/-- `addTypingIndicator` from `app.js`: append the `#typingIndicator`
placeholder message. -/
def addTypingIndicator (st : AppState) : AppState :=
  { st with messages := st.messages ++ [Msg.typing] }

/-- Remove the first `typing` entry of a message list, if any: this is
what `document.getElementById("typingIndicator").remove()` does to the
rendered list. -/
def removeFirstTyping : List Msg → List Msg
  | [] => []
  | Msg.typing :: rest => rest
  | m :: rest => m :: removeFirstTyping rest

/-- `removeTypingIndicator` from `app.js`. -/
def removeTypingIndicator (st : AppState) : AppState :=
  { st with messages := removeFirstTyping st.messages }

/-- `showToast` from `app.js`: append a toast holding the escaped message
and the severity type.  (The auto-dismiss timers are outside the model.) -/
def showToast (st : AppState) (message ty : String) : AppState :=
  { st with toasts := st.toasts ++ [{ message := escapeHtml message, ty := ty }] }

/-- `setLoadingState` from `app.js`, restricted to the state the model
tracks (the spinner/icon/label swaps are all driven by this flag). -/
def setLoadingState (st : AppState) (loading : Bool) : AppState :=
  { st with isLoading := loading }

/-- The generic connectivity error text used in the `catch` block. -/
def connectErrorText : String :=
  "Failed to connect to the server. Please make sure the backend is running."

/-- The generic application-failure fallback text. -/
def genericErrorText : String :=
  "An error occurred while getting the answer."

/-- The `catch` block of `handleSubmit`: remove the typing indicator,
render the generic connectivity error, toast `Connection error`. -/
def transportFail (st : AppState) : AppState :=
  showToast (addErrorMessage (removeTypingIndicator st) connectErrorText)
    "Connection error" "error"

/-- The part of `handleSubmit` after `await response.json()` settles
(lines 92 to 116 of `app.js`), given the trimmed question and the current
instant.  A thrown `TypeError` (calling `.replace` on a non-string
`data.answer`, or rendering a truthy non-string `data.error`) transfers
control to the `catch` block, i.e. `transportFail`. -/
def settle (st : AppState) (outcome : FetchOutcome) (question : String)
    (now : Nat) : AppState :=
  match outcome with
  | .exception => transportFail st
  | .response ok body =>
    let st₁ := removeTypingIndicator st
    if ok then
      match body.answer with
      | .str ans =>
        let st₂ := addAIMessage st₁ ans
        let st₃ := { st₂ with conversationHistory :=
          st₂.conversationHistory ++
            [{ question := question, answer := ans, timestamp := now }] }
        showToast st₃ "Message sent successfully" "success"
      | _ => transportFail st₁
    else
      match body.error with
      | .str e =>
        if e == "" then
          showToast (addErrorMessage st₁ genericErrorText) "Error" "error"
        else
          showToast (addErrorMessage st₁ e) e "error"
      | .num n =>
        if n == 0 then
          showToast (addErrorMessage st₁ genericErrorText) "Error" "error"
        else
          transportFail st₁
      | _ => showToast (addErrorMessage st₁ genericErrorText) "Error" "error"

/-- The synchronous prefix of `handleSubmit` before the `fetch` is awaited
(lines 67 to 81 of `app.js`): hide the welcome screen, render the user
message, clear the input, set the loading flag, add the typing
indicator. -/
def submitPhase1 (st : AppState) (question : String) : AppState :=
  addTypingIndicator (setLoadingState
    { addUserMessage { st with welcomeVisible := false } question with
      inputValue := "" } true)

/-- JavaScript `String.prototype.trim`: strip the leading and trailing run
of whitespace characters (the same character class as `\s`). -/
def jsTrim (s : String) : String :=
  String.mk
    (((s.data.dropWhile (fun c => isJsSpace c)).reverse.dropWhile
      (fun c => isJsSpace c)).reverse)

/-- `handleSubmit` from `app.js` as a function of the pre-submission state,
the eventual fetch outcome, and the current instant.  Returns the final
state together with a flag recording whether a network request was
issued.  The guard `if (!question || isLoading) return;` makes the whole
call a no-op on blank input or while loading. -/
def handleSubmit (st : AppState) (outcome : FetchOutcome) (now : Nat) :
    AppState × Bool :=
  if jsTrim st.inputValue == "" || st.isLoading then (st, false)
  else
    (setLoadingState
      (settle (submitPhase1 st (jsTrim st.inputValue)) outcome
        (jsTrim st.inputValue) now)
      false, true)

/-- `clearChat` from `app.js`, with the result of the `confirm` dialog as
an explicit argument: on confirmation, empty the message list, restore the
welcome screen, reset the history, toast `Chat cleared`; on cancellation,
do nothing. -/
def clearChat (st : AppState) (confirmed : Bool) : AppState :=
  if confirmed then
    showToast { st with
                  messages := [], welcomeVisible := true,
                  conversationHistory := [] } "Chat cleared" "info"
  else st

/-- Whether a rendered message is a user message (`message-user` class). -/
def isUserMsg : Msg → Bool
  | Msg.user _ => true
  | _ => false

theorem removeFirstTyping_of_not_mem {l : List Msg} (h : Msg.typing ∉ l) :
    removeFirstTyping l = l := by
  induction l with
  | nil => rfl
  | cons m rest ih =>
    simp only [List.mem_cons, not_or] at h
    cases m with
    | typing => exact absurd rfl h.1
    | user s => simpa [removeFirstTyping] using ih h.2
    | ai s => simpa [removeFirstTyping] using ih h.2
    | error s => simpa [removeFirstTyping] using ih h.2

theorem removeFirstTyping_append_typing {l : List Msg} (h : Msg.typing ∉ l) :
    removeFirstTyping (l ++ [Msg.typing]) = l := by
  induction l with
  | nil => rfl
  | cons m rest ih =>
    simp only [List.mem_cons, not_or] at h
    cases m with
    | typing => exact absurd rfl h.1
    | user s => simp [removeFirstTyping, ih h.2]
    | ai s => simp [removeFirstTyping, ih h.2]
    | error s => simp [removeFirstTyping, ih h.2]

theorem removeFirstTyping_append_pair (l : List Msg) (m : Msg) (h : Msg.typing ∉ l)
    (hm : m ≠ Msg.typing) :
    removeFirstTyping (l ++ [m, Msg.typing]) = l ++ [m] := by
  have heq : l ++ [m, Msg.typing] = (l ++ [m]) ++ [Msg.typing] := by simp
  rw [heq, removeFirstTyping_append_typing]
  simp [h, Ne.symm hm]

theorem linkifyFuel_nil (fuel : Nat) : linkifyFuel fuel [] = "" := by
  cases fuel with
  | zero => rfl
  | succ fuel => simp [linkifyFuel, tryUrlAt, httpsChars, httpChars]

theorem escapeList_append (l₁ l₂ : List Char) :
    escapeList (l₁ ++ l₂) = escapeList l₁ ++ escapeList l₂ := by
  induction l₁ with
  | nil => simp [escapeList]
  | cons c rest ih => simp [escapeList, ih, String.append_assoc]

theorem escapeChar_no_markup (c : Char) :
    ∀ x ∈ (escapeChar c).data, x ≠ '<' ∧ x ≠ '>' ∧ x ≠ '"' ∧ x ≠ '\'' := by
  unfold escapeChar
  split
  · decide
  · split
    · decide
    · split
      · decide
      · split
        · decide
        · split
          · decide
          · next h1 h2 h3 h4 h5 =>
            intro x hx
            simp [String.singleton] at hx
            subst hx
            exact ⟨h2, h3, h4, h5⟩

theorem escapeList_no_markup (l : List Char) :
    ∀ x ∈ (escapeList l).data, x ≠ '<' ∧ x ≠ '>' ∧ x ≠ '"' ∧ x ≠ '\'' := by
  induction l with
  | nil => intro x hx; simp [escapeList] at hx
  | cons c rest ih =>
    intro x hx
    simp only [escapeList, String.data_append, List.mem_append] at hx
    rcases hx with hx | hx
    · exact escapeChar_no_markup c x hx
    · exact ih x hx

theorem settle_no_typing (st : AppState) (outcome : FetchOutcome) (q : String)
    (now : Nat) (h : Msg.typing ∉ removeFirstTyping st.messages) :
    Msg.typing ∉ (settle st outcome q now).messages := by
  have h2 : removeFirstTyping (removeFirstTyping st.messages) =
      removeFirstTyping st.messages := removeFirstTyping_of_not_mem h
  cases outcome with
  | exception =>
    simp [settle, transportFail, addErrorMessage, removeTypingIndicator, showToast, h]
  | response ok body =>
    obtain ⟨ans, err⟩ := body
    cases ok with
    | true =>
      cases ans with
      | str a =>
        simp [settle, addAIMessage, removeTypingIndicator, showToast, h]
      | absent =>
        simp [settle, transportFail, addErrorMessage, removeTypingIndicator, showToast, h, h2]
      | null =>
        simp [settle, transportFail, addErrorMessage, removeTypingIndicator, showToast, h, h2]
      | num n =>
        simp [settle, transportFail, addErrorMessage, removeTypingIndicator, showToast, h, h2]
    | false =>
      cases err with
      | str e =>
        by_cases he : (e == "") = true
        · simp [settle, he, addErrorMessage, removeTypingIndicator, showToast, h]
        · simp [settle, he, addErrorMessage, removeTypingIndicator, showToast, h]
      | num n =>
        by_cases hn : (n == 0) = true
        · simp [settle, hn, addErrorMessage, removeTypingIndicator, showToast, h]
        · simp [settle, hn, transportFail, addErrorMessage, removeTypingIndicator,
            showToast, h, h2]
      | absent =>
        simp [settle, addErrorMessage, removeTypingIndicator, showToast, h]
      | null =>
        simp [settle, addErrorMessage, removeTypingIndicator, showToast, h]

theorem isPrefixOf_length_le {l₁ l₂ : List Char} (h : l₁.isPrefixOf l₂ = true) :
    l₁.length ≤ l₂.length := by
  induction l₁ generalizing l₂ with
  | nil => simp
  | cons a l ih =>
    cases l₂ with
    | nil => simp [List.isPrefixOf] at h
    | cons b l₂ =>
      simp only [List.isPrefixOf, Bool.and_eq_true] at h
      simpa using ih h.2

theorem length_dropWhile_le' (p : Char → Bool) (l : List Char) :
    (l.dropWhile p).length ≤ l.length := by
  induction l with
  | nil => simp
  | cons a l ih =>
    by_cases h : p a
    · simp only [List.dropWhile, h]
      exact ih.trans (by simp)
    · simp only [List.dropWhile, h]
      simp

theorem tryUrlAt_rest_lt {cs url rest2 : List Char}
    (h : tryUrlAt cs = some (url, rest2)) : rest2.length < cs.length := by
  unfold tryUrlAt at h
  split at h
  · next hpre =>
    split at h
    · simp at h
    · have h8 : (8 : Nat) ≤ cs.length := by
        simpa [httpsChars] using isPrefixOf_length_le hpre
      have hd := length_dropWhile_le' (fun c => !(isJsSpace c)) (cs.drop 8)
      simp only [Option.some.injEq, Prod.mk.injEq] at h
      rw [← h.2]
      simp only [List.length_drop] at hd
      omega
  · split at h
    · next hpre =>
      split at h
      · simp at h
      · have h7 : (7 : Nat) ≤ cs.length := by
          simpa [httpChars] using isPrefixOf_length_le hpre
        have hd := length_dropWhile_le' (fun c => !(isJsSpace c)) (cs.drop 7)
        simp only [Option.some.injEq, Prod.mk.injEq] at h
        rw [← h.2]
        simp only [List.length_drop] at hd
        omega
    · simp at h

theorem linkifyFuel_irrel :
    ∀ (fuel₁ fuel₂ : Nat) (cs : List Char), cs.length ≤ fuel₁ → cs.length ≤ fuel₂ →
      linkifyFuel fuel₁ cs = linkifyFuel fuel₂ cs := by
  intro fuel₁
  induction fuel₁ with
  | zero =>
    intro fuel₂ cs h₁ h₂
    have hnil : cs = [] := List.length_eq_zero.mp (Nat.le_zero.mp h₁)
    subst hnil
    cases fuel₂ with
    | zero => rfl
    | succ fuel₂ => simp [linkifyFuel, tryUrlAt, httpsChars, httpChars]
  | succ fuel₁ ih =>
    intro fuel₂ cs h₁ h₂
    cases fuel₂ with
    | zero =>
      have hnil : cs = [] := List.length_eq_zero.mp (Nat.le_zero.mp h₂)
      subst hnil
      simp [linkifyFuel, tryUrlAt, httpsChars, httpChars]
    | succ fuel₂ =>
      simp only [linkifyFuel]
      cases hmatch : tryUrlAt cs with
      | some p =>
        obtain ⟨url, rest2⟩ := p
        have hlt : rest2.length < cs.length := tryUrlAt_rest_lt hmatch
        dsimp only
        rw [ih fuel₂ rest2 (by omega) (by omega)]
      | none =>
        cases cs with
        | nil => rfl
        | cons c rest =>
          simp only [List.length_cons] at h₁ h₂
          dsimp only
          rw [ih fuel₂ rest (by omega) (by omega)]

theorem escapeHtml_sent :
    escapeHtml "Message sent successfully" = "Message sent successfully" := by decide

theorem escapeHtml_connection : escapeHtml "Connection error" = "Connection error" := by decide

theorem escapeHtml_error_word : escapeHtml "Error" = "Error" := by decide

theorem escapeHtml_cleared : escapeHtml "Chat cleared" = "Chat cleared" := by decide

/-- Claim C3: whenever the input is empty after trimming, or a submission
is already pending (`isLoading`), `handleSubmit` is a no-op: the state is
returned unchanged and no network request is issued. -/
theorem claim_C3_noop_guard (st : AppState) (outcome : FetchOutcome) (now : Nat)
    (h : jsTrim st.inputValue = "" ∨ st.isLoading = true) :
    handleSubmit st outcome now = (st, false) := by
  rcases h with h | h
  · simp [handleSubmit, h]
  · simp [handleSubmit, h]

/-- Witness for C3: whitespace-only input, and pending submission. -/
theorem claim_C3_witness :
    handleSubmit { initialState with inputValue := "   " } FetchOutcome.exception 0 =
      ({ initialState with inputValue := "   " }, false) ∧
    handleSubmit { initialState with inputValue := "hi", isLoading := true }
        FetchOutcome.exception 0 =
      ({ initialState with inputValue := "hi", isLoading := true }, false) :=
  ⟨claim_C3_noop_guard _ _ 0 (Or.inl (by decide)),
   claim_C3_noop_guard _ _ 0 (Or.inr rfl)⟩

/-- Claim C8: `clearChat`, when confirmed, empties the rendered message
list, restores the welcome placeholder, resets `conversationHistory` and
emits an informational toast; when declined, the state is unchanged. -/
theorem claim_C8_clearChat (st : AppState) :
    clearChat st true =
      { st with
          messages := [], welcomeVisible := true, conversationHistory := [],
          toasts := st.toasts ++ [{ message := "Chat cleared", ty := "info" }] } ∧
    clearChat st false = st := by
  constructor
  · simp [clearChat, showToast, escapeHtml_cleared]
  · rfl

/-- Witness for C8 at the initial state. -/
theorem claim_C8_witness : clearChat initialState false = initialState :=
  (claim_C8_clearChat initialState).2

/-- Claim C4: on a non-blank input with no submission pending,
`handleSubmit` runs the synchronous phase first and settles the network
outcome on its result; the synchronous phase appends exactly one
user-rendered message (followed by the typing placeholder), hides the
welcome placeholder, clears the input field and enters the loading
state. -/
theorem claim_C4_sync_phase (st : AppState) (outcome : FetchOutcome) (now : Nat)
    (hq : jsTrim st.inputValue ≠ "") (hl : st.isLoading = false) :
    handleSubmit st outcome now =
      (setLoadingState
        (settle (submitPhase1 st (jsTrim st.inputValue)) outcome
          (jsTrim st.inputValue) now) false, true) ∧
    (submitPhase1 st (jsTrim st.inputValue)).messages =
      st.messages ++ [Msg.user (escapeHtml (jsTrim st.inputValue)), Msg.typing] ∧
    (submitPhase1 st (jsTrim st.inputValue)).messages.countP (fun m => isUserMsg m) =
      st.messages.countP (fun m => isUserMsg m) + 1 ∧
    (submitPhase1 st (jsTrim st.inputValue)).welcomeVisible = false ∧
    (submitPhase1 st (jsTrim st.inputValue)).inputValue = "" ∧
    (submitPhase1 st (jsTrim st.inputValue)).isLoading = true := by
  have hq' : (jsTrim st.inputValue == "") = false := by simpa using hq
  refine ⟨?_, ?_, ?_, rfl, rfl, rfl⟩
  · simp [handleSubmit, hq', hl]
  · simp [submitPhase1, addUserMessage, addTypingIndicator, setLoadingState]
  · simp [submitPhase1, addUserMessage, addTypingIndicator, setLoadingState,
      List.countP_append, isUserMsg]

/-- Witness for C4: the synchronous phase on input `" hi "`. -/
theorem claim_C4_witness :
    (submitPhase1 { initialState with inputValue := " hi " }
        (jsTrim ({ initialState with inputValue := " hi " } : AppState).inputValue)).messages =
      ({ initialState with inputValue := " hi " } : AppState).messages ++
        [Msg.user (escapeHtml
          (jsTrim ({ initialState with inputValue := " hi " } : AppState).inputValue)),
         Msg.typing] :=
  (claim_C4_sync_phase { initialState with inputValue := " hi " }
    FetchOutcome.exception 0 (by decide) rfl).2.1

/-- Claim C1: on a 2xx response with a string `answer`, `handleSubmit`
renders exactly one AI message holding the formatted answer, appends
exactly one ConversationTurn, shows a success toast, and the typing
indicator added at submission is absent afterwards. -/
theorem claim_C1_success_path (st : AppState) (a : String) (err : JsonF) (now : Nat)
    (hq : jsTrim st.inputValue ≠ "") (hl : st.isLoading = false)
    (ht : Msg.typing ∉ st.messages) :
    handleSubmit st (FetchOutcome.response true { answer := JsonF.str a, error := err })
        now =
      ({ st with
           messages := st.messages ++
             [Msg.user (escapeHtml (jsTrim st.inputValue)), Msg.ai (formatText a)],
           conversationHistory := st.conversationHistory ++
             [{ question := jsTrim st.inputValue, answer := a, timestamp := now }],
           isLoading := false, welcomeVisible := false, inputValue := "",
           toasts := st.toasts ++
             [{ message := "Message sent successfully", ty := "success" }] }, true) ∧
    Msg.typing ∉ (handleSubmit st
      (FetchOutcome.response true { answer := JsonF.str a, error := err }) now).1.messages := by
  have hq' : (jsTrim st.inputValue == "") = false := by simpa using hq
  have hrw := removeFirstTyping_append_pair st.messages
    (Msg.user (escapeHtml (jsTrim st.inputValue))) ht (by simp)
  have hmain : handleSubmit st
      (FetchOutcome.response true { answer := JsonF.str a, error := err }) now =
      ({ st with
           messages := st.messages ++
             [Msg.user (escapeHtml (jsTrim st.inputValue)), Msg.ai (formatText a)],
           conversationHistory := st.conversationHistory ++
             [{ question := jsTrim st.inputValue, answer := a, timestamp := now }],
           isLoading := false, welcomeVisible := false, inputValue := "",
           toasts := st.toasts ++
             [{ message := "Message sent successfully", ty := "success" }] }, true) := by
    simp [handleSubmit, hq', hl, settle, submitPhase1, addUserMessage, addAIMessage,
      addTypingIndicator, setLoadingState, removeTypingIndicator, showToast,
      hrw, escapeHtml_sent]
  refine ⟨hmain, ?_⟩
  rw [hmain]
  simp [ht]

set_option maxRecDepth 4000 in
/-- Witness for C1: input `"hi"`, answer `"ok"`. -/
theorem claim_C1_witness :
    handleSubmit { initialState with inputValue := "hi" }
        (FetchOutcome.response true { answer := JsonF.str "ok", error := JsonF.absent }) 3 =
      ({ messages := [Msg.user "hi", Msg.ai "ok"],
         conversationHistory := [{ question := "hi", answer := "ok", timestamp := 3 }],
         isLoading := false, welcomeVisible := false, inputValue := "",
         toasts := [{ message := "Message sent successfully", ty := "success" }] }, true) := by
  have h := (claim_C1_success_path { initialState with inputValue := "hi" } "ok"
    JsonF.absent 3 (by decide) rfl (by decide)).1
  rw [h]
  decide

/-- Claim C2: on an application-level failure carrying a nonempty string
`error`, `handleSubmit` renders exactly one error message holding the
server-supplied text and an error toast with that text; on a transport or
parse exception it renders exactly one generic connectivity error message
and a `Connection error` toast; in both cases no ConversationTurn is
appended. -/
theorem claim_C2_failure_paths (st : AppState) (body : RespBody) (e : String) (now : Nat)
    (hq : jsTrim st.inputValue ≠ "") (hl : st.isLoading = false)
    (ht : Msg.typing ∉ st.messages) (he : body.error = JsonF.str e) (hne : e ≠ "") :
    handleSubmit st (FetchOutcome.response false body) now =
      ({ st with
           messages := st.messages ++
             [Msg.user (escapeHtml (jsTrim st.inputValue)), Msg.error (escapeHtml e)],
           isLoading := false, welcomeVisible := false, inputValue := "",
           toasts := st.toasts ++ [{ message := escapeHtml e, ty := "error" }] }, true) ∧
    handleSubmit st FetchOutcome.exception now =
      ({ st with
           messages := st.messages ++
             [Msg.user (escapeHtml (jsTrim st.inputValue)),
              Msg.error (escapeHtml connectErrorText)],
           isLoading := false, welcomeVisible := false, inputValue := "",
           toasts := st.toasts ++ [{ message := "Connection error", ty := "error" }] },
       true) := by
  have hq' : (jsTrim st.inputValue == "") = false := by simpa using hq
  have hne' : (e == "") = false := by simpa using hne
  have hrw := removeFirstTyping_append_pair st.messages
    (Msg.user (escapeHtml (jsTrim st.inputValue))) ht (by simp)
  constructor
  · simp [handleSubmit, hq', hl, settle, he, hne', submitPhase1, addUserMessage,
      addErrorMessage, addTypingIndicator, setLoadingState, removeTypingIndicator,
      showToast, hrw]
  · simp [handleSubmit, hq', hl, settle, transportFail, submitPhase1, addUserMessage,
      addErrorMessage, addTypingIndicator, setLoadingState, removeTypingIndicator,
      showToast, hrw, escapeHtml_connection]

set_option maxRecDepth 4000 in
/-- Witness for C2: failure response `error: "bad question"`. -/
theorem claim_C2_witness :
    handleSubmit { initialState with inputValue := "hi" }
        (FetchOutcome.response false
          { answer := JsonF.absent, error := JsonF.str "bad question" }) 0 =
      ({ messages := [Msg.user "hi", Msg.error "bad question"],
         conversationHistory := [], isLoading := false, welcomeVisible := false,
         inputValue := "", toasts := [{ message := "bad question", ty := "error" }] },
       true) := by
  have h := (claim_C2_failure_paths { initialState with inputValue := "hi" }
    { answer := JsonF.absent, error := JsonF.str "bad question" } "bad question" 0
    (by decide) rfl (by decide) rfl (by decide)).1
  rw [h]
  decide

/-- Claim C5: on every settlement path — success, application failure or
transport exception — the typing indicator is removed and the loading
state is cleared, so after `handleSubmit` completes the controller is back
in the accepting state. -/
theorem claim_C5_settles_to_idle (st : AppState) (outcome : FetchOutcome) (now : Nat)
    (hq : jsTrim st.inputValue ≠ "") (hl : st.isLoading = false)
    (ht : Msg.typing ∉ st.messages) :
    (handleSubmit st outcome now).2 = true ∧
    (handleSubmit st outcome now).1.isLoading = false ∧
    Msg.typing ∉ (handleSubmit st outcome now).1.messages := by
  have hq' : (jsTrim st.inputValue == "") = false := by simpa using hq
  have hguard : handleSubmit st outcome now =
      (setLoadingState (settle (submitPhase1 st (jsTrim st.inputValue)) outcome
        (jsTrim st.inputValue) now) false, true) := by
    simp [handleSubmit, hq', hl]
  rw [hguard]
  refine ⟨rfl, rfl, ?_⟩
  have hrw := removeFirstTyping_append_pair st.messages
    (Msg.user (escapeHtml (jsTrim st.inputValue))) ht (by simp)
  have hnt : Msg.typing ∉
      removeFirstTyping (submitPhase1 st (jsTrim st.inputValue)).messages := by
    simp [submitPhase1, addUserMessage, addTypingIndicator, setLoadingState, hrw, ht]
  have hset := settle_no_typing (submitPhase1 st (jsTrim st.inputValue)) outcome
    (jsTrim st.inputValue) now hnt
  simpa [setLoadingState] using hset

/-- Witness for C5: transport exception on input `"hi"`. -/
theorem claim_C5_witness :
    (handleSubmit { initialState with inputValue := "hi" }
      FetchOutcome.exception 0).1.isLoading = false :=
  (claim_C5_settles_to_idle { initialState with inputValue := "hi" }
    FetchOutcome.exception 0 (by decide) rfl (by decide)).2.1

/-- Claim C9: on a 2xx response whose `answer` field is not a string
(missing, null, or a number), no AI message is rendered and no
ConversationTurn is appended; the `TypeError` thrown while formatting is
caught by the transport-error branch, so the generic connectivity message
and the `Connection error` toast are shown, and the controller returns to
the accepting state. -/
theorem claim_C9_nonstring_answer (st : AppState) (body : RespBody) (now : Nat)
    (hq : jsTrim st.inputValue ≠ "") (hl : st.isLoading = false)
    (ht : Msg.typing ∉ st.messages) (ha : ∀ s, body.answer ≠ JsonF.str s) :
    handleSubmit st (FetchOutcome.response true body) now =
      ({ st with
           messages := st.messages ++
             [Msg.user (escapeHtml (jsTrim st.inputValue)),
              Msg.error (escapeHtml connectErrorText)],
           isLoading := false, welcomeVisible := false, inputValue := "",
           toasts := st.toasts ++ [{ message := "Connection error", ty := "error" }] },
       true) := by
  have hq' : (jsTrim st.inputValue == "") = false := by simpa using hq
  have hrw := removeFirstTyping_append_pair st.messages
    (Msg.user (escapeHtml (jsTrim st.inputValue))) ht (by simp)
  have hrw2 : removeFirstTyping
      (st.messages ++ [Msg.user (escapeHtml (jsTrim st.inputValue))]) =
      st.messages ++ [Msg.user (escapeHtml (jsTrim st.inputValue))] :=
    removeFirstTyping_of_not_mem (by simp [ht])
  cases hb : body.answer with
  | str s => exact absurd hb (ha s)
  | absent =>
    simp [handleSubmit, hq', hl, settle, hb, transportFail, submitPhase1,
      addUserMessage, addErrorMessage, addTypingIndicator, setLoadingState,
      removeTypingIndicator, showToast, hrw, hrw2, escapeHtml_connection]
  | null =>
    simp [handleSubmit, hq', hl, settle, hb, transportFail, submitPhase1,
      addUserMessage, addErrorMessage, addTypingIndicator, setLoadingState,
      removeTypingIndicator, showToast, hrw, hrw2, escapeHtml_connection]
  | num n =>
    simp [handleSubmit, hq', hl, settle, hb, transportFail, submitPhase1,
      addUserMessage, addErrorMessage, addTypingIndicator, setLoadingState,
      removeTypingIndicator, showToast, hrw, hrw2, escapeHtml_connection]

set_option maxRecDepth 8000 in
/-- Witness for C9: 2xx response with a `null` answer field. -/
theorem claim_C9_witness :
    handleSubmit { initialState with inputValue := "hi" }
        (FetchOutcome.response true { answer := JsonF.null, error := JsonF.absent }) 0 =
      ({ messages := [Msg.user "hi",
           Msg.error "Failed to connect to the server. Please make sure the backend is running."],
         conversationHistory := [], isLoading := false, welcomeVisible := false,
         inputValue := "",
         toasts := [{ message := "Connection error", ty := "error" }] }, true) := by
  have h := claim_C9_nonstring_answer { initialState with inputValue := "hi" }
    { answer := JsonF.null, error := JsonF.absent } 0
    (by decide) rfl (by decide) (by intro s h; exact JsonF.noConfusion h)
  rw [h]
  decide

/-- Claim C10: on a non-2xx response, the server-supplied error message is
used only when the `error` field is a truthy nonempty string; an
empty-string, absent or null `error` field gives the generic fallback
message and the `Error` toast. -/
theorem claim_C10_error_fallback (st : AppState) (body : RespBody) (e : String) (now : Nat)
    (hq : jsTrim st.inputValue ≠ "") (hl : st.isLoading = false)
    (ht : Msg.typing ∉ st.messages) :
    ((body.error = JsonF.str "" ∨ body.error = JsonF.absent ∨ body.error = JsonF.null) →
      handleSubmit st (FetchOutcome.response false body) now =
        ({ st with
             messages := st.messages ++
               [Msg.user (escapeHtml (jsTrim st.inputValue)),
                Msg.error (escapeHtml genericErrorText)],
             isLoading := false, welcomeVisible := false, inputValue := "",
             toasts := st.toasts ++ [{ message := "Error", ty := "error" }] }, true)) ∧
    (body.error = JsonF.str e → e ≠ "" →
      handleSubmit st (FetchOutcome.response false body) now =
        ({ st with
             messages := st.messages ++
               [Msg.user (escapeHtml (jsTrim st.inputValue)), Msg.error (escapeHtml e)],
             isLoading := false, welcomeVisible := false, inputValue := "",
             toasts := st.toasts ++ [{ message := escapeHtml e, ty := "error" }] },
         true)) := by
  have hq' : (jsTrim st.inputValue == "") = false := by simpa using hq
  have hrw := removeFirstTyping_append_pair st.messages
    (Msg.user (escapeHtml (jsTrim st.inputValue))) ht (by simp)
  constructor
  · intro hdisj
    rcases hdisj with hb | hb | hb
    · simp [handleSubmit, hq', hl, settle, hb, submitPhase1, addUserMessage,
        addErrorMessage, addTypingIndicator, setLoadingState, removeTypingIndicator,
        showToast, hrw, escapeHtml_error_word]
    · simp [handleSubmit, hq', hl, settle, hb, submitPhase1, addUserMessage,
        addErrorMessage, addTypingIndicator, setLoadingState, removeTypingIndicator,
        showToast, hrw, escapeHtml_error_word]
    · simp [handleSubmit, hq', hl, settle, hb, submitPhase1, addUserMessage,
        addErrorMessage, addTypingIndicator, setLoadingState, removeTypingIndicator,
        showToast, hrw, escapeHtml_error_word]
  · intro hb hne
    have hne' : (e == "") = false := by simpa using hne
    simp [handleSubmit, hq', hl, settle, hb, hne', submitPhase1, addUserMessage,
      addErrorMessage, addTypingIndicator, setLoadingState, removeTypingIndicator,
      showToast, hrw]

set_option maxRecDepth 4000 in
/-- Witness for C10: failure response with an empty-string `error`. -/
theorem claim_C10_witness :
    handleSubmit { initialState with inputValue := "hi" }
        (FetchOutcome.response false { answer := JsonF.absent, error := JsonF.str "" }) 0 =
      ({ messages := [Msg.user "hi",
           Msg.error "An error occurred while getting the answer."],
         conversationHistory := [], isLoading := false, welcomeVisible := false,
         inputValue := "", toasts := [{ message := "Error", ty := "error" }] }, true) := by
  have h := (claim_C10_error_fallback { initialState with inputValue := "hi" }
    { answer := JsonF.absent, error := JsonF.str "" } "x" 0
    (by decide) rfl (by decide)).1 (Or.inl rfl)
  rw [h]
  decide

/-- Claim C6: `escapeHtml` maps each of the five special characters to its
HTML entity and leaves every other character unchanged (it distributes
over concatenation), so escaped output contains no raw markup characters;
in particular `<script>` becomes literal text. -/
theorem claim_C6_escapeHtml :
    (∀ s t : String, escapeHtml (s ++ t) = escapeHtml s ++ escapeHtml t) ∧
    escapeHtml "&" = "&amp;" ∧
    escapeHtml "<" = "&lt;" ∧
    escapeHtml ">" = "&gt;" ∧
    escapeHtml "\"" = "&quot;" ∧
    escapeHtml "'" = "&#039;" ∧
    (∀ c : Char, c ≠ '&' → c ≠ '<' → c ≠ '>' → c ≠ '"' → c ≠ '\'' →
      escapeHtml (String.singleton c) = String.singleton c) ∧
    (∀ s : String, ∀ c ∈ (escapeHtml s).data,
      c ≠ '<' ∧ c ≠ '>' ∧ c ≠ '"' ∧ c ≠ '\'') ∧
    escapeHtml "<script>" = "&lt;script&gt;" := by
  refine ⟨?_, by decide, by decide, by decide, by decide, by decide, ?_, ?_, by decide⟩
  · intro s t
    show escapeList (s ++ t).data = _
    rw [String.data_append, escapeList_append]
    rfl
  · intro c h1 h2 h3 h4 h5
    show escapeList (String.singleton c).data = _
    simp [String.singleton, escapeList, escapeChar, h1, h2, h3, h4, h5]
  · intro s c hc
    exact escapeList_no_markup s.data c hc

/-- Witness for C6: distributivity at a concrete pair, pass-through at a
plain character. -/
theorem claim_C6_witness :
    escapeHtml ("a" ++ "<") = escapeHtml "a" ++ escapeHtml "<" ∧
    escapeHtml (String.singleton 'x') = String.singleton 'x' :=
  ⟨claim_C6_escapeHtml.1 "a" "<",
   claim_C6_escapeHtml.2.2.2.2.2.2.1 'x' (by decide) (by decide) (by decide)
     (by decide) (by decide)⟩

set_option maxRecDepth 16000 in
/-- Claim C7: `formatText` turns a bare URL — the scheme followed by the
maximal nonempty run of non-whitespace characters — into exactly one
anchor with the URL as both href and link text, `target="_blank"` and
`rel="noopener"`, and turns each newline into `<br>`; on
`"see http://example.com now"` the result is a single anchor wrapping
exactly `http://example.com`. -/
theorem claim_C7_formatText (r : List Char) (hr : r ≠ [])
    (hns : ∀ c ∈ r, isJsSpace c = false) :
    linkify (httpChars ++ r) = urlAnchor (String.mk (httpChars ++ r)) ∧
    formatText "see http://example.com now" =
      "see " ++ urlAnchor "http://example.com" ++ " now" ∧
    formatText "a\nb" = "a<br>b" := by
  refine ⟨?_, by decide, by decide⟩
  have htake : r.takeWhile (fun c => !(isJsSpace c)) = r := by
    rw [List.takeWhile_eq_self_iff]
    intro x hx
    simp [hns x hx]
  have hdropw : r.dropWhile (fun c => !(isJsSpace c)) = [] := by
    rw [List.dropWhile_eq_nil_iff]
    intro x hx
    simp [hns x hx]
  have hpre_false : httpsChars.isPrefixOf (httpChars ++ r) = false := by
    simp [httpsChars, httpChars, List.isPrefixOf]
  have hpre_true : httpChars.isPrefixOf (httpChars ++ r) = true := by
    simp [httpChars, List.isPrefixOf]
  have hdrop7 : (httpChars ++ r).drop 7 = r := by
    simp [httpChars]
  have htry : tryUrlAt (httpChars ++ r) = some (httpChars ++ r, []) := by
    unfold tryUrlAt
    simp only [hpre_false, hpre_true, hdrop7, htake, hdropw, Bool.false_eq_true,
      if_false, if_true]
    rw [if_neg hr]
  have hlen : (httpChars ++ r).length = (6 + r.length) + 1 := by
    simp [httpChars]
    omega
  show linkifyFuel (httpChars ++ r).length (httpChars ++ r) = _
  rw [hlen]
  simp only [linkifyFuel, htry]
  rw [linkifyFuel_nil]
  simp

/-- Witness for C7 at the one-character URL tail `x`. -/
theorem claim_C7_witness :
    linkify (httpChars ++ ['x']) = urlAnchor (String.mk (httpChars ++ ['x'])) :=
  (claim_C7_formatText ['x'] (by decide) (by decide)).1
